import Mathlib

set_option autoImplicit false

/-!
Shallow embedding of the agent-ecosystem core: the base-agent contract
(`src/core/base_agent.py`), the agent factory (`src/core/agent_factory.py`),
the ROI optimization agent (`src/agents/roi_optimization_agent.py`), and the
task-dispatch skeletons of the remaining concrete agents
(`src/agents/*.py`).

Modelling conventions:
- Python dicts are insertion-ordered association lists; assignment to an
  existing key replaces the value in place, otherwise appends.
- Wall-clock readings (`datetime.utcnow()`) are an explicit `now : Nat`
  parameter (seconds); ISO-formatted timestamps in result payloads are
  represented by the numeric clock value.
- Numeric payload fields are rationals (the Python demo data stays within
  exact decimal arithmetic); non-numeric values supplied for numeric
  configuration keys are outside the modelled domain.
- A raised Python exception is an explicit error value (`PyError`).
-/

namespace AgentEcosystem

/-- JSON-like dynamic values, the shape of Python dict payloads. -/
inductive JSON where
  | str : String → JSON
  | num : ℚ → JSON
  | boolean : Bool → JSON
  | arr : List JSON → JSON
  | obj : List (String × JSON) → JSON

/-- Python `d[k]` lookup on an insertion-ordered dict: first (unique) match. -/
def dictLookup {α : Type} (d : List (String × α)) (k : String) : Option α :=
  match d with
  | [] => none
  | (k', v) :: rest => if k' = k then some v else dictLookup rest k

/-- Python `d[k] = v`: replace in place if the key exists, else append. -/
def dictInsert {α : Type} (d : List (String × α)) (k : String) (v : α) :
    List (String × α) :=
  match d with
  | [] => [(k, v)]
  | (k', v') :: rest =>
      if k' = k then (k, v) :: rest else (k', v') :: dictInsert rest k v

/-- Field lookup on a JSON object (`none` on non-objects / missing keys). -/
def JSON.objLookup (j : JSON) (k : String) : Option JSON :=
  match j with
  | JSON.obj kvs => dictLookup kvs k
  | _ => none

/-- Python `j[k] = f (j[k])` on an object: rewrite the value at key `k`. -/
def JSON.objModify (j : JSON) (k : String) (f : JSON → JSON) : JSON :=
  match j with
  | JSON.obj kvs =>
      JSON.obj (kvs.map (fun kv => if kv.1 = k then (kv.1, f kv.2) else kv))
  | other => other

/-- Agent configuration: the `config` dict handed to a constructor. -/
def Config := List (String × JSON)

/-- Python `config.get(key, default)` for a numeric configuration key
(non-numeric values for numeric keys are outside the modelled domain). -/
def cfgGetNum (cfg : Config) (key : String) (dflt : ℚ) : ℚ :=
  match dictLookup cfg key with
  | some (JSON.num q) => q
  | _ => dflt

/-- One record of the in-memory metric log (`BaseAgent.record_metric`):
`{"name": ..., "value": ..., "timestamp": ...}`. -/
structure Metric where
  name : String
  value : JSON
  timestamp : Nat

/-- The fields `BaseAgent.__init__` sets on every agent
(`src/core/base_agent.py`, lines 11-18; the logger is pure output and
is not modelled). -/
structure BaseFields where
  name : String
  config : Config
  created_at : Nat
  last_active : Nat
  status : String
  metrics : List Metric

/-- `BaseAgent.__init__(name, config)` at clock time `now`. -/
def mkBaseFields (name : String) (config : Config) (now : Nat) : BaseFields :=
  { name := name
    config := config
    created_at := now
    last_active := now
    status := "initialized"
    metrics := [] }

/-- `BaseAgent.record_metric(name, value)`: append one
`{name, value, timestamp}` record to the metric log. -/
def record_metric (s : BaseFields) (name : String) (value : JSON) (now : Nat) :
    BaseFields :=
  { s with metrics := s.metrics ++ [⟨name, value, now⟩] }

/-- Serialization of one metric record as it appears in reports. -/
def metricToJSON (m : Metric) : JSON :=
  JSON.obj
    [("name", JSON.str m.name), ("value", m.value),
     ("timestamp", JSON.num (m.timestamp : ℚ))]

/-- Uptime as computed by `BaseAgent.monitor` / `report_metrics`:
`(utcnow() - created_at).total_seconds()` (an integer difference; negative
only if the clock ran backwards). -/
def uptimeAt (created_at now : Nat) : ℚ :=
  (now : ℚ) - (created_at : ℚ)

/-- The base snapshot built by `BaseAgent.monitor`
(`src/core/base_agent.py`, lines 30-40): name, status, last_active,
uptime, and an empty `metrics` section for subtypes to extend. -/
def baseMonitor (s : BaseFields) (now : Nat) : JSON :=
  JSON.obj
    [("name", JSON.str s.name),
     ("status", JSON.str s.status),
     ("last_active", JSON.num (s.last_active : ℚ)),
     ("uptime", JSON.num (uptimeAt s.created_at now)),
     ("metrics", JSON.obj [])]

/-- `BaseAgent.report_metrics` (`src/core/base_agent.py`, lines 52-60):
like the base snapshot but with the full metric log in `metrics`. -/
def report_metrics (s : BaseFields) (now : Nat) : JSON :=
  JSON.obj
    [("name", JSON.str s.name),
     ("status", JSON.str s.status),
     ("last_active", JSON.num (s.last_active : ℚ)),
     ("uptime", JSON.num (uptimeAt s.created_at now)),
     ("metrics", JSON.arr (s.metrics.map metricToJSON))]

/-- A raised Python exception, by class and message. -/
inductive PyError where
  | valueError : String → PyError
  | runtimeError : String → PyError

/-- Task payload for the agents that dispatch on `task.get("type")` and read
numeric fields from `task.get("data", {})`. -/
structure Task where
  taskType : Option String
  data : List (String × ℚ)

/-- Python `data.get(key, default)` on a numeric payload. -/
def dataGet (d : List (String × ℚ)) (k : String) (dflt : ℚ) : ℚ :=
  (dictLookup d k).getD dflt

/-- Python `str` of the value `task.get("type")` as interpolated into the
`"Unknown task type: ..."` message (`str(None) == "None"`). -/
def pyShowTaskType (t : Option String) : String :=
  match t with
  | some s => s
  | none => "None"

/-! ### ROI optimization agent (`src/agents/roi_optimization_agent.py`) -/

/-- State of `ROIOptimizationAgent`: the base fields plus `target_roi`
(`config.get("target_roi", 0.15)`). -/
structure ROIState where
  base : BaseFields
  target_roi : ℚ

/-- `ROIOptimizationAgent.__init__(name, config)`: base construction, then
`target_roi` from config (default `0.15`) and `metrics = []` (re-assigned,
already empty). -/
def roiConstruct (name : String) (config : Config) (now : Nat) : ROIState :=
  let base := mkBaseFields name config now
  { base := { base with metrics := [] }
    target_roi := cfgGetNum config "target_roi" (15 / 100) }

/-- `ROIOptimizationAgent.initialize`: logs and returns `True`, state
unchanged. (The Python name is a reserved token in this development.) -/
def roiInit (s : ROIState) : ROIState × Bool := (s, true)

/-- The three recommendation strings `_optimize_roi` can emit, with the
formatted revenue gap carried as data:
`increaseRevenue g` stands for `"Increase revenue by $<g> to reach target ROI"`. -/
inductive Recommendation where
  | increaseRevenue : ℚ → Recommendation
  | exploreNewRevenueStreams : Recommendation
  | reviewMarketingSpend : Recommendation
  deriving DecidableEq

/-- Result dict of `ROIOptimizationAgent._optimize_roi`. -/
structure RoiResult where
  current_roi : ℚ
  target_roi : ℚ
  revenue : ℚ
  costs : ℚ
  recommendations : List Recommendation
  status : String

/-- `ROIOptimizationAgent._optimize_roi(data)`
(`src/agents/roi_optimization_agent.py`, lines 31-61): reads
`current_revenue`, `current_costs`, `target_roi` (defaults 0, 0, and the
agent's own target); computes `current_roi` guarding the division by
`current_costs > 0`; emits recommendations only when strictly below target;
records two metrics; returns the result dict with status `"success"`. -/
def roiOptimize (s : ROIState) (data : List (String × ℚ)) (now : Nat) :
    ROIState × RoiResult :=
  let current_revenue := dataGet data "current_revenue" 0
  let current_costs := dataGet data "current_costs" 0
  let target_roi := dataGet data "target_roi" s.target_roi
  let current_roi :=
    if current_costs > 0 then (current_revenue - current_costs) / current_costs
    else 0
  let recommendations :=
    if current_roi < target_roi then
      [Recommendation.increaseRevenue
         ((target_roi + 1) * current_costs - current_revenue),
       Recommendation.exploreNewRevenueStreams,
       Recommendation.reviewMarketingSpend]
    else []
  let s1 :=
    { s with base := record_metric s.base "current_roi" (JSON.num current_roi) now }
  let s2 :=
    { s1 with base := record_metric s1.base "target_roi" (JSON.num target_roi) now }
  (s2,
   { current_roi := current_roi
     target_roi := target_roi
     revenue := current_revenue
     costs := current_costs
     recommendations := recommendations
     status := "success" })

/-- `ROIOptimizationAgent.execute(task)`
(`src/agents/roi_optimization_agent.py`, lines 21-29): dispatch on
`task.get("type")`; `"optimize_roi"` runs `_optimize_roi`, anything else
raises `ValueError(f"Unknown task type: ...")`. -/
def roiExecute (s : ROIState) (task : Task) (now : Nat) :
    ROIState × Except PyError RoiResult :=
  if task.taskType = some "optimize_roi" then
    let (s', r) := roiOptimize s task.data now
    (s', Except.ok r)
  else
    (s, Except.error
      (PyError.valueError
        ("Unknown task type: " ++ pyShowTaskType task.taskType)))

/-- `ROIOptimizationAgent.monitor`
(`src/agents/roi_optimization_agent.py`, lines 63-73): the base snapshot
with a `roi_tracking` section added under `metrics`. -/
def roiMonitor (s : ROIState) (now : Nat) : JSON :=
  (baseMonitor s.base now).objModify "metrics"
    (fun inner =>
      match inner with
      | JSON.obj kvs =>
          JSON.obj (dictInsert kvs "roi_tracking"
            (JSON.obj
              [("target_roi", JSON.num s.target_roi),
               ("optimization_count", JSON.num (s.base.metrics.length : ℚ))]))
      | other => other)

/-! ### Marketplace manager agent (`src/agents/marketplace_manager_agent.py`) -/

/-- State of `MarketplaceManagerAgent`: base fields plus `commission_rate`
(`config.get("commission_rate", 0.10)`). -/
structure MarketplaceState where
  base : BaseFields
  commission_rate : ℚ

/-- `MarketplaceManagerAgent.__init__(name, config)`. -/
def marketplaceConstruct (name : String) (config : Config) (now : Nat) :
    MarketplaceState :=
  let base := mkBaseFields name config now
  { base := { base with metrics := [] }
    commission_rate := cfgGetNum config "commission_rate" (10 / 100) }

/-- `MarketplaceManagerAgent.initialize`: logs and returns `True`. -/
def marketplaceInit (s : MarketplaceState) : MarketplaceState × Bool := (s, true)

/-- Outcome of one `execute` call: either an uncaught Python exception or
a returned result dict. -/
inductive ExecOutcome where
  | raised : PyError → ExecOutcome
  | returned : JSON → ExecOutcome

/-- The literal fallback dict
`{"status": "error", "message": "Unknown task type"}` returned by the
agents that signal dispatch failure through the result envelope. -/
def unknownTaskEnvelope : JSON :=
  JSON.obj
    [("status", JSON.str "error"), ("message", JSON.str "Unknown task type")]

/-- `MarketplaceManagerAgent.execute` dispatch
(`src/agents/marketplace_manager_agent.py`, lines 21-31) on
`task.get("type")`; the two handler calls (`_analyze_marketplace`,
`_get_marketplace_stats`) are abstracted as parameters, since the dispatch
behaviour does not depend on them. -/
def marketplaceExecute (hAnalyze hStats : ExecOutcome) (taskType : Option String) :
    ExecOutcome :=
  if taskType = some "analyze_marketplace" then hAnalyze
  else if taskType = some "get_marketplace_stats" then hStats
  else
    ExecOutcome.raised
      (PyError.valueError ("Unknown task type: " ++ pyShowTaskType taskType))

/-- `MarketplaceManagerAgent.monitor`
(`src/agents/marketplace_manager_agent.py`, lines 75-85): the base snapshot
with a `marketplace` section added under `metrics`. -/
def marketplaceMonitor (s : MarketplaceState) (now : Nat) : JSON :=
  (baseMonitor s.base now).objModify "metrics"
    (fun inner =>
      match inner with
      | JSON.obj kvs =>
          JSON.obj (dictInsert kvs "marketplace"
            (JSON.obj
              [("commission_rate", JSON.num s.commission_rate),
               ("transaction_count", JSON.num (s.base.metrics.length : ℚ))]))
      | other => other)

/-! ### Analytics agent (`src/agents/analytics_agent.py`) -/

/-- State of `AnalyticsAgent`: base fields plus `metrics_window`
(`config.get("metrics_window", "24h")`, stored as supplied) and the
`metrics_data` dict. -/
structure AnalyticsState where
  base : BaseFields
  metrics_window : JSON
  metrics_data : List (String × JSON)

/-- `AnalyticsAgent.__init__(name, config)`. -/
def analyticsConstruct (name : String) (config : Config) (now : Nat) :
    AnalyticsState :=
  { base := mkBaseFields name config now
    metrics_window := (dictLookup config "metrics_window").getD (JSON.str "24h")
    metrics_data := [] }

/-- `AnalyticsAgent.initialize`: logs and returns `True`. -/
def analyticsInit (s : AnalyticsState) : AnalyticsState × Bool := (s, true)

/-- `AnalyticsAgent.execute` dispatch
(`src/agents/analytics_agent.py`, lines 22-32) on `task.get("type")`;
handler calls abstracted as parameters. -/
def analyticsExecute (hReport hAnalyze : ExecOutcome) (taskType : Option String) :
    ExecOutcome :=
  if taskType = some "generate_report" then hReport
  else if taskType = some "analyze_data" then hAnalyze
  else
    ExecOutcome.raised
      (PyError.valueError ("Unknown task type: " ++ pyShowTaskType taskType))

/-- `AnalyticsAgent.monitor`
(`src/agents/analytics_agent.py`, lines 118-129): the base snapshot with an
`analytics` section added under `metrics`. -/
def analyticsMonitor (s : AnalyticsState) (now : Nat) : JSON :=
  (baseMonitor s.base now).objModify "metrics"
    (fun inner =>
      match inner with
      | JSON.obj kvs =>
          JSON.obj (dictInsert kvs "analytics"
            (JSON.obj
              [("metrics_window", s.metrics_window),
               ("metrics_count", JSON.num (s.metrics_data.length : ℚ)),
               ("last_report", JSON.num (now : ℚ))]))
      | other => other)

/-! ### User onboarding agent (`src/agents/user_onboarding_agent.py`) -/

/-- One onboarding flow: ordered steps and a completion reward. -/
structure Flow where
  steps : List String
  completion_reward : String

/-- Per-user onboarding progress record (timestamps carried as clock
values standing for the stored ISO strings). -/
structure Progress where
  flow_type : String
  current_step : String
  completed_steps : List String
  start_time : Nat
  last_activity : Nat

/-- State of `UserOnboardingAgent` after `initialize`: flows, per-user
progress and conversion metrics (each conversion record is itself a dict).
Before `initialize` the three collections do not exist on the Python
instance; they are modelled as empty. -/
structure OnboardingState where
  base : BaseFields
  onboarding_flows : List (String × Flow)
  user_progress : List (String × Progress)
  conversion_metrics : List (String × List (String × JSON))

/-- `UserOnboardingAgent` construction: only `BaseAgent.__init__` runs
(the class defines no `__init__` of its own). -/
def onboardingConstruct (name : String) (config : Config) (now : Nat) :
    OnboardingState :=
  { base := mkBaseFields name config now
    onboarding_flows := []
    user_progress := []
    conversion_metrics := [] }

/-- `UserOnboardingAgent.initialize`
(`src/agents/user_onboarding_agent.py`, lines 8-45): installs the three
hardcoded flows, empties progress and conversion metrics, returns `True`. -/
def onboardingInit (s : OnboardingState) : OnboardingState × Bool :=
  ({ s with
      onboarding_flows :=
        [("default",
          { steps :=
              ["welcome", "feature_overview", "first_agent",
               "marketplace_intro", "support_resources"]
            completion_reward := "premium_trial" }),
         ("developer",
          { steps :=
              ["welcome", "api_overview", "sdk_setup", "first_integration",
               "documentation"]
            completion_reward := "api_credits" }),
         ("enterprise",
          { steps :=
              ["welcome", "enterprise_features", "team_setup",
               "security_overview", "support_channels"]
            completion_reward := "consultation" })]
      user_progress := []
      conversion_metrics := [] },
   true)

/-- `UserOnboardingAgent.execute` dispatch
(`src/agents/user_onboarding_agent.py`, lines 47-62) on `task["type"]`;
handler calls abstracted as parameters. Unmatched types fall through to the
error envelope. -/
def onboardingExecute (hStart hTrack hOptimize : ExecOutcome) (taskType : String) :
    ExecOutcome :=
  if taskType = "start_onboarding" then hStart
  else if taskType = "track_progress" then hTrack
  else if taskType = "optimize_flow" then hOptimize
  else ExecOutcome.returned unknownTaskEnvelope

/-- `UserOnboardingAgent._calculate_completion_rates`
(`src/agents/user_onboarding_agent.py`, lines 157-170): for each flow type,
the fraction of users of that flow whose completed-step count equals the
flow's step count (`0.0` when the flow has no users). -/
def calcCompletionRates (s : OnboardingState) : List (String × JSON) :=
  s.onboarding_flows.map (fun ft =>
    let users := (s.user_progress.filter
      (fun up => up.2.flow_type = ft.1)).map Prod.snd
    if users.length > 0 then
      let completed := (users.filter
        (fun u => u.completed_steps.length = ft.2.steps.length)).length
      (ft.1, JSON.num ((completed : ℚ) / (users.length : ℚ)))
    else (ft.1, JSON.num 0))

/-- `UserOnboardingAgent._gather_conversion_metrics`
(`src/agents/user_onboarding_agent.py`, lines 172-182): for each flow type
present in `conversion_metrics`, a dict of rate, average time, and drop-off
points with defaults. -/
def gatherConversionMetrics (s : OnboardingState) : List (String × JSON) :=
  s.onboarding_flows.filterMap (fun ft =>
    match dictLookup s.conversion_metrics ft.1 with
    | some cm =>
        some (ft.1, JSON.obj
          [("conversion_rate", (dictLookup cm "rate").getD (JSON.num 0)),
           ("average_time", (dictLookup cm "avg_time").getD (JSON.num 0)),
           ("drop_off_points", (dictLookup cm "drop_offs").getD (JSON.obj []))])
    | none => none)

/-- `UserOnboardingAgent.monitor`
(`src/agents/user_onboarding_agent.py`, lines 64-74): a wholesale override
returning only completion rates, conversion metrics, active user count and
a last-check timestamp — none of the base snapshot fields. -/
def onboardingMonitor (s : OnboardingState) (now : Nat) : JSON :=
  JSON.obj
    [("completion_rates", JSON.obj (calcCompletionRates s)),
     ("conversion_metrics", JSON.obj (gatherConversionMetrics s)),
     ("active_users", JSON.num (s.user_progress.length : ℚ)),
     ("last_check", JSON.num (now : ℚ))]

/-! ### Dispatch skeletons of the remaining concrete agents.
Each embeds the `execute` method's branching on `task["type"]` with the
handler calls abstracted as parameters; every one falls through to the
literal `{"status": "error", "message": "Unknown task type"}` envelope. -/

/-- `CommunityEngagementAgent.execute` dispatch
(`src/agents/community_engagement_agent.py`, lines 34-50). -/
def communityExecute (hRespond hSentiment hEvent : ExecOutcome)
    (taskType : String) : ExecOutcome :=
  if taskType = "respond_to_user" then hRespond
  else if taskType = "monitor_sentiment" then hSentiment
  else if taskType = "create_event" then hEvent
  else ExecOutcome.returned unknownTaskEnvelope

/-- `ContentCreatorAgent.execute` dispatch
(`src/agents/content_creator_agent.py`, lines 34-52). -/
def contentCreatorExecute (hCreate hOptimize hSchedule : ExecOutcome)
    (taskType : String) : ExecOutcome :=
  if taskType = "create_content" then hCreate
  else if taskType = "optimize_content" then hOptimize
  else if taskType = "schedule_content" then hSchedule
  else ExecOutcome.returned unknownTaskEnvelope

/-- `DataPrivacyAgent.execute` dispatch
(`src/agents/data_privacy_agent.py`, lines 62-82). -/
def dataPrivacyExecute (hCheck hRequest hAudit : ExecOutcome)
    (taskType : String) : ExecOutcome :=
  if taskType = "privacy_check" then hCheck
  else if taskType = "handle_request" then hRequest
  else if taskType = "audit_access" then hAudit
  else ExecOutcome.returned unknownTaskEnvelope

/-- `FeedbackManagerAgent.execute` dispatch
(`src/agents/feedback_manager_agent.py`, lines 34-50). -/
def feedbackManagerExecute (hCollect hAnalyze hReport : ExecOutcome)
    (taskType : String) : ExecOutcome :=
  if taskType = "collect_feedback" then hCollect
  else if taskType = "analyze_feedback" then hAnalyze
  else if taskType = "generate_report" then hReport
  else ExecOutcome.returned unknownTaskEnvelope

/-- `InfluencerOutreachAgent.execute` dispatch
(`src/agents/influencer_outreach_agent.py`, lines 38-50). -/
def influencerExecute (hIdentify hCampaign hTrack : ExecOutcome)
    (taskType : String) : ExecOutcome :=
  if taskType = "identify_influencers" then hIdentify
  else if taskType = "create_campaign" then hCampaign
  else if taskType = "track_performance" then hTrack
  else ExecOutcome.returned unknownTaskEnvelope

/-- `LaunchStrategistAgent.execute` dispatch
(`src/agents/launch_strategist_agent.py`, lines 42-51). -/
def launchStrategistExecute (hPhase hTask hStrategy : ExecOutcome)
    (taskType : String) : ExecOutcome :=
  if taskType = "phase_transition" then hPhase
  else if taskType = "execute_task" then hTask
  else if taskType = "update_strategy" then hStrategy
  else ExecOutcome.returned unknownTaskEnvelope

/-- `RevenueOptimizerAgent.execute` dispatch
(`src/agents/revenue_optimizer_agent.py`, lines 41-53). -/
def revenueOptimizerExecute (hPricing hAnalyze hStrategy : ExecOutcome)
    (taskType : String) : ExecOutcome :=
  if taskType = "optimize_pricing" then hPricing
  else if taskType = "analyze_revenue" then hAnalyze
  else if taskType = "implement_strategy" then hStrategy
  else ExecOutcome.returned unknownTaskEnvelope

/-! ### Agent factory (`src/core/agent_factory.py`) -/

/-- A registered agent class over an agent representation `A`: the Python
class object, viewed as its constructor together with its `initialize`
method (state in, state and success flag out). -/
structure AgentClass (A : Type) where
  construct : String → Config → Nat → A
  init : A → A × Bool

/-- `AgentFactory` state: the `registered_agents` dict
(`src/core/agent_factory.py`, line 14; the logger is pure output). -/
structure AgentFactory (A : Type) where
  registered_agents : List (String × AgentClass A)

/-- `AgentFactory.register_agent(agent_type, agent_class)`
(`src/core/agent_factory.py`, lines 22-25): unconditional dict assignment. -/
def register_agent {A : Type} (F : AgentFactory A) (agent_type : String)
    (agent_class : AgentClass A) : AgentFactory A :=
  { registered_agents := dictInsert F.registered_agents agent_type agent_class }

/-- `AgentFactory.create_agent(agent_type, name, config)`
(`src/core/agent_factory.py`, lines 27-41): unknown tag raises
`ValueError`; otherwise construct, run `initialize`, and either hand the
initialized agent back or raise `RuntimeError` naming the agent. The
factory state is returned alongside to make the absence of registry
side effects explicit. -/
def create_agent {A : Type} (F : AgentFactory A) (agent_type name : String)
    (config : Config) (now : Nat) : AgentFactory A × Except PyError A :=
  match dictLookup F.registered_agents agent_type with
  | none =>
      (F, Except.error
        (PyError.valueError ("Unknown agent type: " ++ agent_type)))
  | some agent_class =>
      let agent := agent_class.construct name config now
      match agent_class.init agent with
      | (a, true) => (F, Except.ok a)
      | (_, false) =>
          (F, Except.error
            (PyError.runtimeError ("Failed to initialize agent: " ++ name)))

/-- `AgentFactory.get_available_agent_types`
(`src/core/agent_factory.py`, lines 43-45): `list(registered_agents.keys())`. -/
def get_available_agent_types {A : Type} (F : AgentFactory A) : List String :=
  F.registered_agents.map Prod.fst

/-- The specialization loop of `AgentFactory.create_specialized_agent`
(`src/core/agent_factory.py`, lines 56-58): for each override in order,
`setattr` only when `hasattr` holds; the Python builtins `hasattr`/`setattr`
are the explicit object-model parameters. -/
def applySpecialization {A : Type} (hasAttr : A → String → Bool)
    (setAttr : A → String → JSON → A) (a : A)
    (specialization : List (String × JSON)) : A :=
  specialization.foldl
    (fun acc kv => if hasAttr acc kv.1 then setAttr acc kv.1 kv.2 else acc) a

/-- `AgentFactory.create_specialized_agent(agent_type, name, config,
specialization)` (`src/core/agent_factory.py`, lines 47-61): build via
`create_agent`, then apply the overrides. -/
def create_specialized_agent {A : Type} (hasAttr : A → String → Bool)
    (setAttr : A → String → JSON → A) (F : AgentFactory A)
    (agent_type name : String) (config : Config) (now : Nat)
    (specialization : List (String × JSON)) :
    AgentFactory A × Except PyError A :=
  match create_agent F agent_type name config now with
  | (F', Except.error e) => (F', Except.error e)
  | (F', Except.ok base_agent) =>
      (F', Except.ok (applySpecialization hasAttr setAttr base_agent
        specialization))

/-- The union of the agent states the default registry can construct. -/
inductive AgentImpl where
  | roi : ROIState → AgentImpl
  | marketplace : MarketplaceState → AgentImpl
  | analytics : AnalyticsState → AgentImpl

/-- The `ROIOptimizationAgent` class as registered in the factory. -/
def roiClass : AgentClass AgentImpl :=
  { construct := fun name cfg now => AgentImpl.roi (roiConstruct name cfg now)
    init := fun a =>
      match a with
      | AgentImpl.roi s =>
          let (s', ok) := roiInit s
          (AgentImpl.roi s', ok)
      | other => (other, true) }

/-- The `MarketplaceManagerAgent` class as registered in the factory. -/
def marketplaceClass : AgentClass AgentImpl :=
  { construct := fun name cfg now =>
      AgentImpl.marketplace (marketplaceConstruct name cfg now)
    init := fun a =>
      match a with
      | AgentImpl.marketplace s =>
          let (s', ok) := marketplaceInit s
          (AgentImpl.marketplace s', ok)
      | other => (other, true) }

/-- The `AnalyticsAgent` class as registered in the factory. -/
def analyticsClass : AgentClass AgentImpl :=
  { construct := fun name cfg now =>
      AgentImpl.analytics (analyticsConstruct name cfg now)
    init := fun a =>
      match a with
      | AgentImpl.analytics s =>
          let (s', ok) := analyticsInit s
          (AgentImpl.analytics s', ok)
      | other => (other, true) }

/-- `AgentFactory.__init__` (`src/core/agent_factory.py`, lines 13-20):
an empty registry followed by the three default registrations, in order. -/
def defaultFactory : AgentFactory AgentImpl :=
  register_agent
    (register_agent
      (register_agent { registered_agents := [] } "roi_optimization" roiClass)
      "marketplace_manager" marketplaceClass)
    "analytics" analyticsClass

/-! ### Dictionary lemmas shared by the factory theorems -/

theorem dictLookup_insert_self {α : Type} (d : List (String × α)) (k : String)
    (v : α) : dictLookup (dictInsert d k v) k = some v := by
  induction d with
  | nil => simp [dictInsert, dictLookup]
  | cons hd tl ih =>
      by_cases h : hd.1 = k
      · simp [dictInsert, dictLookup, h]
      · simp [dictInsert, dictLookup, h, ih]

/-- A test agent class whose `initialize` reports failure, exercising the
factory's abort branch. -/
def failingClass : AgentClass AgentImpl :=
  { construct := fun name cfg now => AgentImpl.roi (roiConstruct name cfg now)
    init := fun a => (a, false) }

/-- **C1.** For every registered type tag, `create_agent` either hands back
the agent produced by running `initialize` exactly once on the freshly
constructed instance (when it returned true), or fails with a
`RuntimeError` naming the agent and returns no agent (when it returned
false). -/
theorem create_agent_init_once_or_error {A : Type} (F : AgentFactory A)
    (t name : String) (cfg : Config) (now : Nat) (cls : AgentClass A)
    (hreg : dictLookup F.registered_agents t = some cls) :
    ((cls.init (cls.construct name cfg now)).2 = true →
      create_agent F t name cfg now =
        (F, Except.ok (cls.init (cls.construct name cfg now)).1)) ∧
    ((cls.init (cls.construct name cfg now)).2 = false →
      create_agent F t name cfg now =
        (F, Except.error
          (PyError.runtimeError ("Failed to initialize agent: " ++ name)))) := by
  rcases hp : cls.init (cls.construct name cfg now) with ⟨a, ok⟩
  constructor
  · intro h
    have hok : ok = true := h
    subst hok
    simp only [create_agent, hreg, hp]
  · intro h
    have hok : ok = false := h
    subst hok
    simp only [create_agent, hreg, hp]

/-- Witness for C1: in the default factory, creating a `roi_optimization`
agent hands back the initialized instance; a registered class whose
`initialize` fails makes the whole creation fail with the naming
`RuntimeError`. -/
theorem create_agent_init_once_or_error_witness :
    create_agent defaultFactory "roi_optimization" "A1" [] 0 =
      (defaultFactory, Except.ok (AgentImpl.roi (roiConstruct "A1" [] 0))) ∧
    create_agent (register_agent defaultFactory "always_failing" failingClass)
        "always_failing" "B1" [] 0 =
      (register_agent defaultFactory "always_failing" failingClass,
       Except.error
         (PyError.runtimeError ("Failed to initialize agent: " ++ "B1"))) := by
  constructor
  · exact (create_agent_init_once_or_error defaultFactory "roi_optimization"
      "A1" [] 0 roiClass rfl).1 rfl
  · exact (create_agent_init_once_or_error _ "always_failing" "B1" [] 0
      failingClass (dictLookup_insert_self _ _ _)).2 rfl

/-- **C4.** `create_agent` with an unregistered tag fails with
`ValueError("Unknown agent type: ...")`, constructs no agent, and leaves
the registry untouched. -/
theorem create_agent_unknown_type_error {A : Type} (F : AgentFactory A)
    (t name : String) (cfg : Config) (now : Nat)
    (habsent : dictLookup F.registered_agents t = none) :
    create_agent F t name cfg now =
      (F, Except.error (PyError.valueError ("Unknown agent type: " ++ t))) := by
  simp only [create_agent, habsent]

/-- Witness for C4: the default factory rejects the tag `"nonexistent"`. -/
theorem create_agent_unknown_type_error_witness :
    create_agent defaultFactory "nonexistent" "A1" [] 0 =
      (defaultFactory,
       Except.error
         (PyError.valueError ("Unknown agent type: " ++ "nonexistent"))) :=
  create_agent_unknown_type_error defaultFactory "nonexistent" "A1" [] 0 rfl

/-- **C7.** Registering the same tag twice silently overwrites: the registry
maps the tag to the second constructor and a subsequent `create_agent` with
that tag constructs (and initializes) through the second constructor. -/
theorem register_agent_last_registration_wins {A : Type} (F : AgentFactory A)
    (t : String) (c1 c2 : AgentClass A) (name : String) (cfg : Config)
    (now : Nat) :
    dictLookup
        (register_agent (register_agent F t c1) t c2).registered_agents t =
      some c2 ∧
    create_agent (register_agent (register_agent F t c1) t c2) t name cfg now =
      (register_agent (register_agent F t c1) t c2,
       match c2.init (c2.construct name cfg now) with
       | (a, true) => Except.ok a
       | (_, false) =>
           Except.error
             (PyError.runtimeError ("Failed to initialize agent: " ++ name))) := by
  have hl : dictLookup
      (register_agent (register_agent F t c1) t c2).registered_agents t =
      some c2 := dictLookup_insert_self _ _ _
  refine ⟨hl, ?_⟩
  rcases hp : c2.init (c2.construct name cfg now) with ⟨a, ok⟩
  cases ok <;> simp only [create_agent, hl, hp]

/-- **C10.** A freshly constructed factory already has exactly the tags
`roi_optimization`, `marketplace_manager`, `analytics` (in registration
order), mapped to the corresponding agent classes, and
`get_available_agent_types` returns exactly those three tags. -/
theorem default_factory_exactly_three_types :
    get_available_agent_types defaultFactory =
      ["roi_optimization", "marketplace_manager", "analytics"] ∧
    dictLookup defaultFactory.registered_agents "roi_optimization" =
      some roiClass ∧
    dictLookup defaultFactory.registered_agents "marketplace_manager" =
      some marketplaceClass ∧
    dictLookup defaultFactory.registered_agents "analytics" =
      some analyticsClass :=
  ⟨rfl, rfl, rfl, rfl⟩

/-- The specialization loop touches exactly the overrides whose attribute
already exists: provided `setattr` never changes which attributes exist
(true in the source, where it only rewrites existing attributes), the loop
is equivalent to running over the existing-attribute overrides only. -/
theorem applySpecialization_filter {A : Type} (hasAttr : A → String → Bool)
    (setAttr : A → String → JSON → A)
    (hstable : ∀ x k v k', hasAttr (setAttr x k v) k' = hasAttr x k')
    (a : A) (spec : List (String × JSON)) :
    applySpecialization hasAttr setAttr a spec =
      applySpecialization hasAttr setAttr a
        (spec.filter (fun kv => hasAttr a kv.1)) := by
  induction spec generalizing a with
  | nil => rfl
  | cons hd tl ih =>
      by_cases h : hasAttr a hd.1
      · have step :
            applySpecialization hasAttr setAttr a (hd :: tl) =
              applySpecialization hasAttr setAttr (setAttr a hd.1 hd.2) tl := by
          simp only [applySpecialization, List.foldl_cons, h, if_pos]
        have stepR :
            (hd :: tl).filter (fun kv => hasAttr a kv.1) =
              hd :: tl.filter (fun kv => hasAttr a kv.1) := by
          simp [List.filter_cons, h]
        have step2 :
            applySpecialization hasAttr setAttr a
                (hd :: tl.filter (fun kv => hasAttr a kv.1)) =
              applySpecialization hasAttr setAttr (setAttr a hd.1 hd.2)
                (tl.filter (fun kv => hasAttr a kv.1)) := by
          simp only [applySpecialization, List.foldl_cons, h, if_pos]
        have hfilter :
            tl.filter (fun kv => hasAttr a kv.1) =
              tl.filter (fun kv => hasAttr (setAttr a hd.1 hd.2) kv.1) := by
          refine List.filter_congr ?_
          intro kv _
          rw [hstable]
        rw [step, stepR, step2, hfilter]
        exact ih (setAttr a hd.1 hd.2)
      · have step :
            applySpecialization hasAttr setAttr a (hd :: tl) =
              applySpecialization hasAttr setAttr a tl := by
          simp only [applySpecialization, List.foldl_cons, h, if_neg,
            Bool.false_eq_true, not_false_eq_true]
        have stepR :
            (hd :: tl).filter (fun kv => hasAttr a kv.1) =
              tl.filter (fun kv => hasAttr a kv.1) := by
          simp [List.filter_cons, h]
        rw [step, stepR]
        exact ih a

/-- **C8.** `create_specialized_agent` applies exactly the overrides whose
attribute name exists on the constructed agent; override keys naming
non-existent attributes are silently skipped (no error, no new attribute,
agent untouched for those keys), and if no override key exists on the
agent, the agent comes back entirely unmodified. -/
theorem create_specialized_agent_skips_unknown_attributes {A : Type}
    (hasAttr : A → String → Bool) (setAttr : A → String → JSON → A)
    (F : AgentFactory A) (t name : String) (cfg : Config) (now : Nat)
    (spec : List (String × JSON)) (a : A)
    (hstable : ∀ x k v k', hasAttr (setAttr x k v) k' = hasAttr x k')
    (hok : create_agent F t name cfg now = (F, Except.ok a)) :
    create_specialized_agent hasAttr setAttr F t name cfg now spec =
      (F, Except.ok (applySpecialization hasAttr setAttr a
        (spec.filter (fun kv => hasAttr a kv.1)))) ∧
    ((∀ kv ∈ spec, hasAttr a kv.1 = false) →
      create_specialized_agent hasAttr setAttr F t name cfg now spec =
        (F, Except.ok a)) := by
  have hmain : create_specialized_agent hasAttr setAttr F t name cfg now spec =
      (F, Except.ok (applySpecialization hasAttr setAttr a spec)) := by
    simp only [create_specialized_agent, hok]
  constructor
  · rw [hmain, applySpecialization_filter hasAttr setAttr hstable]
  · intro hall
    rw [hmain, applySpecialization_filter hasAttr setAttr hstable]
    have hempty : spec.filter (fun kv => hasAttr a kv.1) = [] := by
      refine List.filter_eq_nil_iff.mpr ?_
      intro kv hkv
      simp [hall kv hkv]
    rw [hempty]
    rfl

/-- The Python builtin `hasattr` on an ROI agent instance: the attributes
`BaseAgent.__init__` and `ROIOptimizationAgent.__init__` install (used to
instantiate the C8 theorem; the other variants are not exercised). -/
def roiHasAttr : AgentImpl → String → Bool := fun a k =>
  match a with
  | AgentImpl.roi _ =>
      (["name", "config", "created_at", "last_active", "status", "logger",
        "metrics", "target_roi"] : List String).contains k
  | _ => false

/-- The Python builtin `setattr` on an ROI agent instance, modelled for the
numeric `target_roi` attribute (the only override shape the witness
exercises); other cases leave the instance unchanged. -/
def roiSetAttr : AgentImpl → String → JSON → AgentImpl := fun a k v =>
  match a with
  | AgentImpl.roi s =>
      AgentImpl.roi
        (if k = "target_roi" then
          match v with
          | JSON.num q => { s with target_roi := q }
          | _ => s
        else s)
  | other => other

/-- Witness for C8: specializing a fresh ROI agent with the single override
`nonexistent_attr` raises nothing and returns the agent unmodified. -/
theorem create_specialized_agent_skips_unknown_attributes_witness :
    create_specialized_agent roiHasAttr roiSetAttr defaultFactory
        "roi_optimization" "A1" [] 0 [("nonexistent_attr", JSON.num 1)] =
      (defaultFactory, Except.ok (AgentImpl.roi (roiConstruct "A1" [] 0))) := by
  refine (create_specialized_agent_skips_unknown_attributes roiHasAttr
    roiSetAttr defaultFactory "roi_optimization" "A1" [] 0
    [("nonexistent_attr", JSON.num 1)] (AgentImpl.roi (roiConstruct "A1" [] 0))
    (fun x k v k' => by cases x <;> rfl) rfl).2 ?_
  intro kv hkv
  simp only [List.mem_singleton] at hkv
  subst hkv
  rfl

/-- **C9.** The ROI computation is total in the division: when
`current_costs` is `0` (in particular when absent, defaulting to `0`),
`current_roi` is defined as `0` without dividing, and the operation still
returns a `"success"` result. -/
theorem roi_optimize_total_zero_costs (s : ROIState)
    (data : List (String × ℚ)) (now : Nat)
    (h : dataGet data "current_costs" 0 = 0) :
    (roiOptimize s data now).2.current_roi = 0 ∧
    (roiOptimize s data now).2.status = "success" := by
  constructor
  · have hroi : (roiOptimize s data now).2.current_roi =
        (if dataGet data "current_costs" 0 > 0 then
          (dataGet data "current_revenue" 0 - dataGet data "current_costs" 0) /
            dataGet data "current_costs" 0
        else 0) := rfl
    rw [hroi, h]
    norm_num
  · rfl

/-- Witness for C9: on an empty data payload (`current_costs` absent), the
ROI of a fresh agent evaluates to `0` with status `"success"`. -/
theorem roi_optimize_total_zero_costs_witness :
    dataGet [] "current_costs" 0 = 0 ∧
    ((roiOptimize (roiConstruct "A1" [] 0) [] 7).2.current_roi = 0 ∧
     (roiOptimize (roiConstruct "A1" [] 0) [] 7).2.status = "success") :=
  ⟨rfl, roi_optimize_total_zero_costs (roiConstruct "A1" [] 0) [] 7 rfl⟩

/-- **C6.** `record_metric` appends exactly one `{name, value, timestamp}`
record at the end of the metric log (FIFO order of prior entries
preserved), never errors (it is a total function), and an immediate
metrics read reports the new entry last. -/
theorem record_metric_appends_last_fifo (s : BaseFields) (name : String)
    (value : JSON) (t now : Nat) :
    (record_metric s name value t).metrics =
      s.metrics ++ [Metric.mk name value t] ∧
    (record_metric s name value t).metrics.length = s.metrics.length + 1 ∧
    (report_metrics (record_metric s name value t) now).objLookup "metrics" =
      some (JSON.arr ((s.metrics ++ [Metric.mk name value t]).map metricToJSON)) ∧
    ((record_metric s name value t).metrics.map metricToJSON).getLast? =
      some (metricToJSON (Metric.mk name value t)) := by
  refine ⟨rfl, by simp [record_metric], rfl, ?_⟩
  simp [record_metric, List.getLast?_concat]

/-- Unfolding of the recommendation branch of `_optimize_roi` in terms of
the result's own fields. -/
theorem roiOptimize_recommendations (s : ROIState) (data : List (String × ℚ))
    (now : Nat) :
    (roiOptimize s data now).2.recommendations =
      (if (roiOptimize s data now).2.current_roi <
          (roiOptimize s data now).2.target_roi then
        [Recommendation.increaseRevenue
           (((roiOptimize s data now).2.target_roi + 1) *
              (roiOptimize s data now).2.costs -
            (roiOptimize s data now).2.revenue),
         Recommendation.exploreNewRevenueStreams,
         Recommendation.reviewMarketingSpend]
      else []) := rfl

/-- **C5.** The concrete scenario: creating a `roi_optimization` agent with
`target_roi = 0.15` and executing `optimize_roi` on revenue `100000` and
costs `80000` yields `current_roi = (100000 - 80000) / 80000 = 0.25`,
status `"success"`, and no recommendations; in general the recommendation
list is non-empty exactly when `current_roi` is strictly below
`target_roi`. -/
theorem roi_scenario_recommendations_iff :
    (create_agent defaultFactory "roi_optimization" "A1"
        [("target_roi", JSON.num (15 / 100))] 0 =
      (defaultFactory,
       Except.ok (AgentImpl.roi
         (roiConstruct "A1" [("target_roi", JSON.num (15 / 100))] 0)))) ∧
    (∃ res : RoiResult,
      (roiExecute (roiConstruct "A1" [("target_roi", JSON.num (15 / 100))] 0)
          { taskType := some "optimize_roi"
            data :=
              [("current_revenue", 100000), ("current_costs", 80000),
               ("target_roi", 15 / 100)] } 7).2 = Except.ok res ∧
      res.current_roi = (100000 - 80000) / 80000 ∧
      res.current_roi = 25 / 100 ∧
      res.status = "success" ∧
      res.recommendations = []) ∧
    (∀ (s : ROIState) (data : List (String × ℚ)) (now : Nat),
      (roiOptimize s data now).2.recommendations ≠ [] ↔
        (roiOptimize s data now).2.current_roi <
          (roiOptimize s data now).2.target_roi) := by
  have hc : dataGet
      [("current_revenue", (100000 : ℚ)), ("current_costs", 80000),
       ("target_roi", 15 / 100)] "current_costs" 0 = 80000 := rfl
  have hr : dataGet
      [("current_revenue", (100000 : ℚ)), ("current_costs", 80000),
       ("target_roi", 15 / 100)] "current_revenue" 0 = 100000 := rfl
  have ht : dataGet
      [("current_revenue", (100000 : ℚ)), ("current_costs", 80000),
       ("target_roi", 15 / 100)] "target_roi"
      (roiConstruct "A1" [("target_roi", JSON.num (15 / 100))] 0).target_roi =
      15 / 100 := rfl
  refine ⟨rfl, ⟨_, rfl, ?_, ?_, rfl, ?_⟩, ?_⟩
  · simp only [hc, hr]
    norm_num
  · simp only [hc, hr]
    norm_num
  · simp only [hc, hr, ht]
    norm_num
  intro s data now
  rw [roiOptimize_recommendations]
  by_cases h : (roiOptimize s data now).2.current_roi <
      (roiOptimize s data now).2.target_roi
  · simp [h]
  · simp [h]

/-- Counterexample to C3 as stated: `UserOnboardingAgent` is a concrete
agent variant whose `monitor()` — on a successfully initialized agent —
returns a snapshot with none of the fields `name`, `status`, `uptime`, or
`metrics` (it overrides the base snapshot wholesale). -/
theorem onboarding_monitor_lacks_base_fields :
    (onboardingInit (onboardingConstruct "U1" [] 0)).2 = true ∧
    (onboardingMonitor (onboardingInit (onboardingConstruct "U1" [] 0)).1
        5).objLookup "name" = none ∧
    (onboardingMonitor (onboardingInit (onboardingConstruct "U1" [] 0)).1
        5).objLookup "status" = none ∧
    (onboardingMonitor (onboardingInit (onboardingConstruct "U1" [] 0)).1
        5).objLookup "uptime" = none ∧
    (onboardingMonitor (onboardingInit (onboardingConstruct "U1" [] 0)).1
        5).objLookup "metrics" = none :=
  ⟨rfl, rfl, rfl, rfl, rfl⟩

/-- **C3 (amended).** For the concrete agents whose `monitor()` composes
the base snapshot (`ROIOptimizationAgent`, `MarketplaceManagerAgent`,
`AnalyticsAgent`), the snapshot always carries `name`, `status`, a
`metrics` section, and `uptime`; when the clock is at or after creation the
uptime is non-negative, and it is non-decreasing in the clock across
repeated calls on the same instance. (`UserOnboardingAgent` and the other
wholesale-overriding variants do not satisfy this; see the
counterexample.) -/
theorem monitor_base_fields_for_composing_agents :
    (∀ (s : ROIState) (t1 t2 : Nat), s.base.created_at ≤ t1 → t1 ≤ t2 →
      (roiMonitor s t1).objLookup "name" = some (JSON.str s.base.name) ∧
      (roiMonitor s t1).objLookup "status" = some (JSON.str s.base.status) ∧
      ((roiMonitor s t1).objLookup "metrics").isSome = true ∧
      (roiMonitor s t1).objLookup "uptime" =
        some (JSON.num (uptimeAt s.base.created_at t1)) ∧
      0 ≤ uptimeAt s.base.created_at t1 ∧
      uptimeAt s.base.created_at t1 ≤ uptimeAt s.base.created_at t2) ∧
    (∀ (s : MarketplaceState) (t1 t2 : Nat), s.base.created_at ≤ t1 → t1 ≤ t2 →
      (marketplaceMonitor s t1).objLookup "name" = some (JSON.str s.base.name) ∧
      (marketplaceMonitor s t1).objLookup "status" =
        some (JSON.str s.base.status) ∧
      ((marketplaceMonitor s t1).objLookup "metrics").isSome = true ∧
      (marketplaceMonitor s t1).objLookup "uptime" =
        some (JSON.num (uptimeAt s.base.created_at t1)) ∧
      0 ≤ uptimeAt s.base.created_at t1 ∧
      uptimeAt s.base.created_at t1 ≤ uptimeAt s.base.created_at t2) ∧
    (∀ (s : AnalyticsState) (t1 t2 : Nat), s.base.created_at ≤ t1 → t1 ≤ t2 →
      (analyticsMonitor s t1).objLookup "name" = some (JSON.str s.base.name) ∧
      (analyticsMonitor s t1).objLookup "status" =
        some (JSON.str s.base.status) ∧
      ((analyticsMonitor s t1).objLookup "metrics").isSome = true ∧
      (analyticsMonitor s t1).objLookup "uptime" =
        some (JSON.num (uptimeAt s.base.created_at t1)) ∧
      0 ≤ uptimeAt s.base.created_at t1 ∧
      uptimeAt s.base.created_at t1 ≤ uptimeAt s.base.created_at t2) := by
  refine ⟨?_, ?_, ?_⟩ <;>
    · intro s t1 t2 h1 h2
      refine ⟨rfl, rfl, rfl, rfl, ?_, ?_⟩
      · exact sub_nonneg.mpr (by exact_mod_cast h1)
      · exact sub_le_sub_right (by exact_mod_cast h2) _

/-- Witness for C3 (amended): fresh agents created at time 0, monitored at
time 3 (with 3 ≤ 5), expose the computed uptime. -/
theorem monitor_base_fields_for_composing_agents_witness :
    (roiMonitor (roiConstruct "A1" [] 0) 3).objLookup "uptime" =
      some (JSON.num (uptimeAt 0 3)) ∧
    (marketplaceMonitor (marketplaceConstruct "M1" [] 0) 3).objLookup
        "uptime" = some (JSON.num (uptimeAt 0 3)) ∧
    (analyticsMonitor (analyticsConstruct "N1" [] 0) 3).objLookup "uptime" =
      some (JSON.num (uptimeAt 0 3)) := by
  refine ⟨?_, ?_, ?_⟩
  · exact (monitor_base_fields_for_composing_agents.1
      (roiConstruct "A1" [] 0) 3 5 (by decide) (by decide)).2.2.2.1
  · exact (monitor_base_fields_for_composing_agents.2.1
      (marketplaceConstruct "M1" [] 0) 3 5 (by decide) (by decide)).2.2.2.1
  · exact (monitor_base_fields_for_composing_agents.2.2
      (analyticsConstruct "N1" [] 0) 3 5 (by decide) (by decide)).2.2.2.1

/-- **C2.** For every concrete agent variant, `execute` on a task whose
`type` discriminator is unrecognized signals a dispatch failure and never
silently no-ops: the three agents that raise do so with
`ValueError("Unknown task type: ...")` naming the offending type; the
other eight return the literal
`{"status": "error", "message": "Unknown task type"}` envelope, whose
status is `"error"` — never a success envelope. -/
theorem execute_unknown_task_type_fails :
    (∀ (s : ROIState) (task : Task) (now : Nat),
      task.taskType ≠ some "optimize_roi" →
      (roiExecute s task now).2 =
        Except.error (PyError.valueError
          ("Unknown task type: " ++ pyShowTaskType task.taskType))) ∧
    (∀ (h1 h2 : ExecOutcome) (t : Option String),
      t ≠ some "analyze_marketplace" → t ≠ some "get_marketplace_stats" →
      marketplaceExecute h1 h2 t =
        ExecOutcome.raised (PyError.valueError
          ("Unknown task type: " ++ pyShowTaskType t))) ∧
    (∀ (h1 h2 : ExecOutcome) (t : Option String),
      t ≠ some "generate_report" → t ≠ some "analyze_data" →
      analyticsExecute h1 h2 t =
        ExecOutcome.raised (PyError.valueError
          ("Unknown task type: " ++ pyShowTaskType t))) ∧
    (∀ (h1 h2 h3 : ExecOutcome) (t : String),
      t ≠ "start_onboarding" → t ≠ "track_progress" → t ≠ "optimize_flow" →
      onboardingExecute h1 h2 h3 t =
        ExecOutcome.returned unknownTaskEnvelope) ∧
    (∀ (h1 h2 h3 : ExecOutcome) (t : String),
      t ≠ "respond_to_user" → t ≠ "monitor_sentiment" → t ≠ "create_event" →
      communityExecute h1 h2 h3 t =
        ExecOutcome.returned unknownTaskEnvelope) ∧
    (∀ (h1 h2 h3 : ExecOutcome) (t : String),
      t ≠ "create_content" → t ≠ "optimize_content" →
      t ≠ "schedule_content" →
      contentCreatorExecute h1 h2 h3 t =
        ExecOutcome.returned unknownTaskEnvelope) ∧
    (∀ (h1 h2 h3 : ExecOutcome) (t : String),
      t ≠ "privacy_check" → t ≠ "handle_request" → t ≠ "audit_access" →
      dataPrivacyExecute h1 h2 h3 t =
        ExecOutcome.returned unknownTaskEnvelope) ∧
    (∀ (h1 h2 h3 : ExecOutcome) (t : String),
      t ≠ "collect_feedback" → t ≠ "analyze_feedback" →
      t ≠ "generate_report" →
      feedbackManagerExecute h1 h2 h3 t =
        ExecOutcome.returned unknownTaskEnvelope) ∧
    (∀ (h1 h2 h3 : ExecOutcome) (t : String),
      t ≠ "identify_influencers" → t ≠ "create_campaign" →
      t ≠ "track_performance" →
      influencerExecute h1 h2 h3 t =
        ExecOutcome.returned unknownTaskEnvelope) ∧
    (∀ (h1 h2 h3 : ExecOutcome) (t : String),
      t ≠ "phase_transition" → t ≠ "execute_task" → t ≠ "update_strategy" →
      launchStrategistExecute h1 h2 h3 t =
        ExecOutcome.returned unknownTaskEnvelope) ∧
    (∀ (h1 h2 h3 : ExecOutcome) (t : String),
      t ≠ "optimize_pricing" → t ≠ "analyze_revenue" →
      t ≠ "implement_strategy" →
      revenueOptimizerExecute h1 h2 h3 t =
        ExecOutcome.returned unknownTaskEnvelope) ∧
    unknownTaskEnvelope.objLookup "status" = some (JSON.str "error") := by
  refine ⟨?_, ?_, ?_, ?_, ?_, ?_, ?_, ?_, ?_, ?_, ?_, rfl⟩
  · intro s task now h
    simp [roiExecute, h]
  · intro h1 h2 t ha hb
    simp [marketplaceExecute, ha, hb]
  · intro h1 h2 t ha hb
    simp [analyticsExecute, ha, hb]
  · intro h1 h2 h3 t ha hb hc
    simp [onboardingExecute, ha, hb, hc]
  · intro h1 h2 h3 t ha hb hc
    simp [communityExecute, ha, hb, hc]
  · intro h1 h2 h3 t ha hb hc
    simp [contentCreatorExecute, ha, hb, hc]
  · intro h1 h2 h3 t ha hb hc
    simp [dataPrivacyExecute, ha, hb, hc]
  · intro h1 h2 h3 t ha hb hc
    simp [feedbackManagerExecute, ha, hb, hc]
  · intro h1 h2 h3 t ha hb hc
    simp [influencerExecute, ha, hb, hc]
  · intro h1 h2 h3 t ha hb hc
    simp [launchStrategistExecute, ha, hb, hc]
  · intro h1 h2 h3 t ha hb hc
    simp [revenueOptimizerExecute, ha, hb, hc]

/-- Witness for C2: each dispatch, fed the unrecognized type `"bogus"`
(and arbitrary concrete handler outcomes), yields its dispatch-failure
outcome. -/
theorem execute_unknown_task_type_fails_witness :
    (roiExecute (roiConstruct "A1" [] 0)
        { taskType := some "bogus", data := [] } 7).2 =
      Except.error (PyError.valueError
        ("Unknown task type: " ++ pyShowTaskType (some "bogus"))) ∧
    marketplaceExecute (ExecOutcome.returned (JSON.obj []))
        (ExecOutcome.returned (JSON.obj [])) (some "bogus") =
      ExecOutcome.raised (PyError.valueError
        ("Unknown task type: " ++ pyShowTaskType (some "bogus"))) ∧
    analyticsExecute (ExecOutcome.returned (JSON.obj []))
        (ExecOutcome.returned (JSON.obj [])) (some "bogus") =
      ExecOutcome.raised (PyError.valueError
        ("Unknown task type: " ++ pyShowTaskType (some "bogus"))) ∧
    onboardingExecute (ExecOutcome.returned (JSON.obj []))
        (ExecOutcome.returned (JSON.obj []))
        (ExecOutcome.returned (JSON.obj [])) "bogus" =
      ExecOutcome.returned unknownTaskEnvelope ∧
    communityExecute (ExecOutcome.returned (JSON.obj []))
        (ExecOutcome.returned (JSON.obj []))
        (ExecOutcome.returned (JSON.obj [])) "bogus" =
      ExecOutcome.returned unknownTaskEnvelope ∧
    contentCreatorExecute (ExecOutcome.returned (JSON.obj []))
        (ExecOutcome.returned (JSON.obj []))
        (ExecOutcome.returned (JSON.obj [])) "bogus" =
      ExecOutcome.returned unknownTaskEnvelope ∧
    dataPrivacyExecute (ExecOutcome.returned (JSON.obj []))
        (ExecOutcome.returned (JSON.obj []))
        (ExecOutcome.returned (JSON.obj [])) "bogus" =
      ExecOutcome.returned unknownTaskEnvelope ∧
    feedbackManagerExecute (ExecOutcome.returned (JSON.obj []))
        (ExecOutcome.returned (JSON.obj []))
        (ExecOutcome.returned (JSON.obj [])) "bogus" =
      ExecOutcome.returned unknownTaskEnvelope ∧
    influencerExecute (ExecOutcome.returned (JSON.obj []))
        (ExecOutcome.returned (JSON.obj []))
        (ExecOutcome.returned (JSON.obj [])) "bogus" =
      ExecOutcome.returned unknownTaskEnvelope ∧
    launchStrategistExecute (ExecOutcome.returned (JSON.obj []))
        (ExecOutcome.returned (JSON.obj []))
        (ExecOutcome.returned (JSON.obj [])) "bogus" =
      ExecOutcome.returned unknownTaskEnvelope ∧
    revenueOptimizerExecute (ExecOutcome.returned (JSON.obj []))
        (ExecOutcome.returned (JSON.obj []))
        (ExecOutcome.returned (JSON.obj [])) "bogus" =
      ExecOutcome.returned unknownTaskEnvelope := by
  refine ⟨?_, ?_, ?_, ?_, ?_, ?_, ?_, ?_, ?_, ?_, ?_⟩
  · exact execute_unknown_task_type_fails.1 (roiConstruct "A1" [] 0)
      { taskType := some "bogus", data := [] } 7 (by decide)
  · exact execute_unknown_task_type_fails.2.1 _ _ (some "bogus")
      (by decide) (by decide)
  · exact execute_unknown_task_type_fails.2.2.1 _ _ (some "bogus")
      (by decide) (by decide)
  · exact execute_unknown_task_type_fails.2.2.2.1 _ _ _ "bogus"
      (by decide) (by decide) (by decide)
  · exact execute_unknown_task_type_fails.2.2.2.2.1 _ _ _ "bogus"
      (by decide) (by decide) (by decide)
  · exact execute_unknown_task_type_fails.2.2.2.2.2.1 _ _ _ "bogus"
      (by decide) (by decide) (by decide)
  · exact execute_unknown_task_type_fails.2.2.2.2.2.2.1 _ _ _ "bogus"
      (by decide) (by decide) (by decide)
  · exact execute_unknown_task_type_fails.2.2.2.2.2.2.2.1 _ _ _ "bogus"
      (by decide) (by decide) (by decide)
  · exact execute_unknown_task_type_fails.2.2.2.2.2.2.2.2.1 _ _ _ "bogus"
      (by decide) (by decide) (by decide)
  · exact execute_unknown_task_type_fails.2.2.2.2.2.2.2.2.2.1 _ _ _ "bogus"
      (by decide) (by decide) (by decide)
  · exact execute_unknown_task_type_fails.2.2.2.2.2.2.2.2.2.2.1 _ _ _ "bogus"
      (by decide) (by decide) (by decide)

end AgentEcosystem
